import Mathlib

/-!
A shallow embedding of the Helm chart browser TUI (`main.go` of
tankibaj/helm-browser).  The Go program is a Bubble Tea application: a
single `model` record is threaded through an `Update` function that
consumes messages (key presses and async fetch results) and returns the
next model together with a command.  Strings are modelled as `List Char`,
Go slices as Lean lists, and the returned `tea.Cmd` as a small inductive
`Cmd` naming which async operation (if any) is issued, with `Cmd.quit`
standing for `tea.Quit`.
-/

/-- The application states (Go `state` enumeration, main.go:54-62). -/
inductive State where
  | stateRepoUpdate
  | stateRepoList
  | stateChartList
  | stateVersionList
  | stateDownload
  | stateError
  | stateComplete
deriving DecidableEq, Repr

/-- Go `pageSize` defines the number of items to show per page (main.go:65). -/
def pageSize : Nat := 10

/-- Go `HelmRepo` (main.go:68-71). -/
structure HelmRepo where
  name : List Char
  url : List Char
deriving DecidableEq, Repr, Inhabited

/-- Go `HelmChart` (main.go:74-79). -/
structure HelmChart where
  name : List Char
  version : List Char
  appVersion : List Char
  description : List Char
deriving DecidableEq, Repr, Inhabited

/-- Go `HelmVersion` (main.go:82-87). -/
structure HelmVersion where
  name : List Char
  version : List Char
  appVersion : List Char
  created : List Char
deriving DecidableEq, Repr, Inhabited

/-- Go `model` (main.go:90-102).  Index fields and the cursor are `Nat`:
in the Go program they are `int`s that are only ever assigned 0, a
decrement guarded by `> 0`, or another of these fields, so they never go
negative; the one comparison where Go evaluates `len-1` as `-1` (empty
list) is false in Go exactly when the corresponding Nat-truncated
comparison is false here. -/
structure Model where
  state : State
  repos : List HelmRepo
  charts : List HelmChart
  versions : List HelmVersion
  selectedRepo : Nat
  selectedChart : Nat
  selectedVersion : Nat
  cursor : Nat
  loading : Bool
  error : List Char
  message : List Char
deriving DecidableEq, Repr

/-- Go `initialModel` (main.go:105-110); unset Go fields take zero values. -/
def initialModel : Model :=
  { state := State.stateRepoUpdate
    repos := []
    charts := []
    versions := []
    selectedRepo := 0
    selectedChart := 0
    selectedVersion := 0
    cursor := 0
    loading := true
    error := []
    message := [] }

/-- Go `getCurrentPage` (main.go:120-122). -/
def Model.getCurrentPage (m : Model) : Nat :=
  m.cursor / pageSize

/-- Go `getPageStart` (main.go:125-127). -/
def Model.getPageStart (m : Model) : Nat :=
  m.getCurrentPage * pageSize

/-- Go `getPageEnd` (main.go:130-136). -/
def Model.getPageEnd (m : Model) (totalItems : Nat) : Nat :=
  let e := m.getPageStart + pageSize
  if e > totalItems then totalItems else e

/-- Go `getCursorInPage` (main.go:139-141). -/
def Model.getCursorInPage (m : Model) : Nat :=
  m.cursor % pageSize

/-- The Bubble Tea messages consumed by `Update` (main.go:144-149), plus
key presses (`tea.KeyMsg`, carried as the string `msg.String()` returns). -/
inductive Msg where
  | key (k : List Char)
  | repoUpdateMsg
  | reposLoadedMsg (rs : List HelmRepo)
  | chartsLoadedMsg (cs : List HelmChart)
  | versionsLoadedMsg (vs : List HelmVersion)
  | downloadCompleteMsg (filename : List Char)
  | errorMsg (s : List Char)
deriving DecidableEq

/-- The command returned by `Update`: `none` is Go `nil`, `quit` is
`tea.Quit`, and the rest name the async fetch being issued
(main.go:154-246) with the arguments the Go code passes. -/
inductive Cmd where
  | none
  | quit
  | loadRepos
  | loadCharts (repoName : List Char)
  | loadVersions (chartName : List Char)
  | downloadValues (chartName : List Char) (version : List Char)
deriving DecidableEq, Repr

/-- Go `strings.Split(s, sep)` for a one-character separator: the list of
(possibly empty) chunks between occurrences of `sep`; never empty. -/
def splitOnChar (sep : Char) : List Char → List (List Char)
  | [] => [[]]
  | c :: cs =>
    match splitOnChar sep cs with
    | [] => [[]]
    | w :: ws => if c = sep then [] :: w :: ws else (c :: w) :: ws

/-- The filename computed by Go `downloadValues` (main.go:234-237):
`chartParts := strings.Split(chartName, "/")`,
`chartBaseName := chartParts[len(chartParts)-1]`,
`fmt.Sprintf("%s-%s-default-values.yaml", chartBaseName, version)`. -/
def valuesFilename (chartName version : List Char) : List Char :=
  let chartBaseName := (splitOnChar '/' chartName).getLastD []
  chartBaseName ++ ('-' :: version) ++ "-default-values.yaml".data

/-- Go `strconv.Atoi` restricted to the single-character strings the Go code
feeds it (main.go:347-348): succeeds exactly on a decimal digit. -/
def atoi1 (c : Char) : Option Nat :=
  if c.isDigit then some (c.toNat - '0'.toNat) else none

/-- The `tea.KeyMsg` branch of Go `Update` (main.go:251-384), keyed on
`msg.String()`.  List indexing `m.repos[i]` etc. is `List.getD` with the
type's default; the Go code only indexes in bounds. -/
def updateKey (m : Model) (k : List Char) : Model × Cmd :=
  if k = "ctrl+c".data ∨ k = "q".data then
    (m, Cmd.quit)
  else if k = "up".data ∨ k = "k".data then
    match m.state with
    | State.stateRepoList =>
      (if m.cursor > 0 then { m with cursor := m.cursor - 1 } else m, Cmd.none)
    | State.stateChartList =>
      (if m.cursor > 0 then { m with cursor := m.cursor - 1 } else m, Cmd.none)
    | State.stateVersionList =>
      (if m.cursor > 0 then { m with cursor := m.cursor - 1 } else m, Cmd.none)
    | _ => (m, Cmd.none)
  else if k = "down".data ∨ k = "j".data then
    match m.state with
    | State.stateRepoList =>
      (if m.cursor < m.repos.length - 1 then { m with cursor := m.cursor + 1 } else m, Cmd.none)
    | State.stateChartList =>
      (if m.cursor < m.charts.length - 1 then { m with cursor := m.cursor + 1 } else m, Cmd.none)
    | State.stateVersionList =>
      (if m.cursor < m.versions.length - 1 then { m with cursor := m.cursor + 1 } else m, Cmd.none)
    | _ => (m, Cmd.none)
  else if k = "enter".data ∨ k = " ".data then
    match m.state with
    | State.stateRepoList =>
      if m.repos.length > 0 then
        ({ m with selectedRepo := m.cursor, cursor := 0, loading := true,
                  state := State.stateChartList },
         Cmd.loadCharts (m.repos.getD m.cursor default).name)
      else (m, Cmd.none)
    | State.stateChartList =>
      if m.charts.length > 0 then
        ({ m with selectedChart := m.cursor, cursor := 0, loading := true,
                  state := State.stateVersionList },
         Cmd.loadVersions (m.charts.getD m.cursor default).name)
      else (m, Cmd.none)
    | State.stateVersionList =>
      if m.versions.length > 0 then
        ({ m with selectedVersion := m.cursor, loading := true,
                  state := State.stateDownload },
         Cmd.downloadValues (m.versions.getD m.cursor default).name
           (m.versions.getD m.cursor default).version)
      else (m, Cmd.none)
    | State.stateComplete => (m, Cmd.quit)
    | _ => (m, Cmd.none)
  else if k = "backspace".data ∨ k = "esc".data then
    match m.state with
    | State.stateChartList =>
      ({ m with state := State.stateRepoList, cursor := m.selectedRepo, charts := [] }, Cmd.none)
    | State.stateVersionList =>
      ({ m with state := State.stateChartList, cursor := m.selectedChart, versions := [] }, Cmd.none)
    | State.stateComplete => (m, Cmd.quit)
    | _ => (m, Cmd.none)
  else
    if m.state = State.stateComplete then (m, Cmd.quit)
    else
      match k with
      | [c] =>
        match atoi1 c with
        | some num =>
          if num ≥ 1 ∧ num ≤ pageSize then
            match m.state with
            | State.stateRepoList =>
              let pageStart := m.getPageStart
              let absoluteIndex := pageStart + num - 1
              if absoluteIndex < m.repos.length then
                ({ m with selectedRepo := absoluteIndex, cursor := 0, loading := true,
                          state := State.stateChartList },
                 Cmd.loadCharts (m.repos.getD absoluteIndex default).name)
              else (m, Cmd.none)
            | State.stateChartList =>
              let pageStart := m.getPageStart
              let absoluteIndex := pageStart + num - 1
              if absoluteIndex < m.charts.length then
                ({ m with selectedChart := absoluteIndex, cursor := 0, loading := true,
                          state := State.stateVersionList },
                 Cmd.loadVersions (m.charts.getD absoluteIndex default).name)
              else (m, Cmd.none)
            | State.stateVersionList =>
              let pageStart := m.getPageStart
              let absoluteIndex := pageStart + num - 1
              if absoluteIndex < m.versions.length then
                ({ m with selectedVersion := absoluteIndex, loading := true,
                          state := State.stateDownload },
                 Cmd.downloadValues (m.versions.getD absoluteIndex default).name
                   (m.versions.getD absoluteIndex default).version)
              else (m, Cmd.none)
            | _ => (m, Cmd.none)
          else (m, Cmd.none)
        | Option.none => (m, Cmd.none)
      | _ => (m, Cmd.none)

/-- Go `Update` (main.go:249-418). -/
def update (m : Model) (msg : Msg) : Model × Cmd :=
  match msg with
  | Msg.key k => updateKey m k
  | Msg.repoUpdateMsg => ({ m with loading := true }, Cmd.loadRepos)
  | Msg.reposLoadedMsg rs =>
    ({ m with repos := rs, loading := false, state := State.stateRepoList, cursor := 0 }, Cmd.none)
  | Msg.chartsLoadedMsg cs =>
    ({ m with charts := cs, loading := false, cursor := 0 }, Cmd.none)
  | Msg.versionsLoadedMsg vs =>
    ({ m with versions := vs, loading := false, cursor := 0 }, Cmd.none)
  | Msg.downloadCompleteMsg fn =>
    ({ m with loading := false, state := State.stateComplete,
              message := "Successfully downloaded: ".data ++ fn }, Cmd.none)
  | Msg.errorMsg s =>
    ({ m with loading := false, state := State.stateError, error := s }, Cmd.none)

/-- Length of the sequence displayed by the active list screen (the Go
`View` reads `m.repos`, `m.charts` or `m.versions` according to
`m.state`, main.go:442/491/541); 0 on non-list screens. -/
def activeLen (m : Model) : Nat :=
  match m.state with
  | State.stateRepoList => m.repos.length
  | State.stateChartList => m.charts.length
  | State.stateVersionList => m.versions.length
  | _ => 0

/-- The row indices rendered for a list of `totalItems` entries: the Go
`View` loops `for i := start; i < end; i++` (main.go:444, 493, 543). -/
def displayedIndices (m : Model) (totalItems : Nat) : List Nat :=
  List.range' m.getPageStart (m.getPageEnd totalItems - m.getPageStart)

/-- Ten sample repositories, enough to fill one full page. -/
def sampleRepos : List HelmRepo :=
  "abcdefghij".data.map (fun c => ⟨[c], []⟩)

/-- A loaded repository-list screen showing `sampleRepos`. -/
def mRepoTen : Model :=
  { initialModel with state := State.stateRepoList, repos := sampleRepos, loading := false }

/-- A chart-list screen whose fetch is still in flight (reached from
`mRepoTen` by selecting repository 3). -/
def mChartLoading : Model :=
  { initialModel with state := State.stateChartList, loading := true,
                      selectedRepo := 3, repos := sampleRepos }

/-- A failed session. -/
def mFailed : Model :=
  { initialModel with state := State.stateError, loading := false,
                      error := "Failed to list repos: exit status 1".data }

/-- A completed session. -/
def mDone : Model :=
  { initialModel with state := State.stateComplete, loading := false,
                      message := "Successfully downloaded: x.yaml".data }

/-- Claim C2: for every non-empty displayed sequence of length `L` and
cursor `c < L`, the page bounds are `pageStart = (c / 10) * 10` and
`pageEnd = min (pageStart + 10) L`, and the rendered row count equals
`pageEnd - pageStart`. -/
theorem pageBounds_formula (m : Model) (L : Nat) (hL : 0 < L) (hc : m.cursor < L) :
    m.getPageStart = m.cursor / 10 * 10 ∧
    m.getPageEnd L = min (m.getPageStart + 10) L ∧
    (displayedIndices m L).length = m.getPageEnd L - m.getPageStart := by
  refine ⟨rfl, ?_, ?_⟩
  · unfold Model.getPageEnd Model.getPageStart Model.getCurrentPage pageSize
    dsimp only
    split_ifs with h <;> omega
  · simp [displayedIndices]

/-- Witness for C2 at Scenario B of the spec: 25 items, cursor 23. -/
theorem pageBounds_formula_inst :
    ({ initialModel with cursor := 23 } : Model).getPageStart = 20 ∧
    ({ initialModel with cursor := 23 } : Model).getPageEnd 25 = 25 := by
  have h := pageBounds_formula { initialModel with cursor := 23 } 25
    (by decide) (by decide)
  refine ⟨h.1.trans (by decide), h.2.1.trans ?_⟩
  rw [h.1]
  decide

/-- Claim C7 (amended): receiving the index-refreshed message in the
RefreshingIndex state sets the loading flag and issues the
list-repositories fetch, but leaves the screen at RefreshingIndex; the
Session only moves to RepositoryList when the repositories-loaded
message arrives. -/
theorem repoUpdate_keeps_screen (m : Model) (h : m.state = State.stateRepoUpdate) :
    update m Msg.repoUpdateMsg = ({ m with loading := true }, Cmd.loadRepos) ∧
    (update m Msg.repoUpdateMsg).1.state = State.stateRepoUpdate ∧
    ∀ rs : List HelmRepo,
      update (update m Msg.repoUpdateMsg).1 (Msg.reposLoadedMsg rs)
        = ({ m with repos := rs, loading := false, state := State.stateRepoList,
                    cursor := 0 }, Cmd.none) :=
  ⟨rfl, h, fun _ => rfl⟩

/-- Witness for C7 (amended) at the initial model. -/
theorem repoUpdate_keeps_screen_inst :
    update initialModel Msg.repoUpdateMsg = ({ initialModel with loading := true }, Cmd.loadRepos) :=
  (repoUpdate_keeps_screen initialModel rfl).1

/-- Counterexample to C7 as stated: from the initial (RefreshingIndex)
state, the index-refreshed message does not move the screen to
RepositoryList. -/
theorem repoUpdate_not_repoList :
    initialModel.state = State.stateRepoUpdate ∧
    (update initialModel Msg.repoUpdateMsg).1.state ≠ State.stateRepoList := by
  decide

/-- Value of `activeLen` on the repository-list screen. -/
lemma activeLen_repoList (m : Model) (hs : m.state = State.stateRepoList) :
    activeLen m = m.repos.length := by
  unfold activeLen
  rw [hs]

/-- Value of `activeLen` on the chart-list screen. -/
lemma activeLen_chartList (m : Model) (hs : m.state = State.stateChartList) :
    activeLen m = m.charts.length := by
  unfold activeLen
  rw [hs]

/-- Value of `activeLen` on the version-list screen. -/
lemma activeLen_versionList (m : Model) (hs : m.state = State.stateVersionList) :
    activeLen m = m.versions.length := by
  unfold activeLen
  rw [hs]

/-- Keys `ctrl+c` and `q` quit from every state (main.go:253-254). -/
lemma updateKey_quitKeys (m : Model) (k : List Char)
    (hk : k = "ctrl+c".data ∨ k = "q".data) :
    updateKey m k = (m, Cmd.quit) := by
  unfold updateKey
  rw [if_pos hk]

/-- Keys `up`/`k` on a list screen decrements the cursor, stopping at 0
(main.go:256-272). -/
lemma updateKey_upKeys (m : Model) (k : List Char)
    (hk : k = "up".data ∨ k = "k".data)
    (hs : m.state = State.stateRepoList ∨ m.state = State.stateChartList ∨
      m.state = State.stateVersionList) :
    updateKey m k
      = (if m.cursor > 0 then { m with cursor := m.cursor - 1 } else m, Cmd.none) := by
  have h1 : ¬(k = "ctrl+c".data ∨ k = "q".data) := by
    rcases hk with rfl | rfl <;> decide
  unfold updateKey
  rw [if_neg h1, if_pos hk]
  rcases hs with hs | hs | hs <;> rw [hs]

/-- Keys `up`/`k` outside the list screens does nothing (main.go:270-271). -/
lemma updateKey_upKeys_other (m : Model) (k : List Char)
    (hk : k = "up".data ∨ k = "k".data)
    (hs1 : m.state ≠ State.stateRepoList) (hs2 : m.state ≠ State.stateChartList)
    (hs3 : m.state ≠ State.stateVersionList) :
    updateKey m k = (m, Cmd.none) := by
  have h1 : ¬(k = "ctrl+c".data ∨ k = "q".data) := by
    rcases hk with rfl | rfl <;> decide
  unfold updateKey
  rw [if_neg h1, if_pos hk]
  cases hst : m.state <;>
    first
      | rfl
      | exact absurd hst hs1
      | exact absurd hst hs2
      | exact absurd hst hs3

/-- Keys `down`/`j` on the repository list increments the cursor, stopping at
the last index (main.go:276-279). -/
lemma updateKey_downKeys_repoList (m : Model) (k : List Char)
    (hk : k = "down".data ∨ k = "j".data) (hs : m.state = State.stateRepoList) :
    updateKey m k
      = (if m.cursor < m.repos.length - 1 then { m with cursor := m.cursor + 1 } else m,
         Cmd.none) := by
  have h1 : ¬(k = "ctrl+c".data ∨ k = "q".data) := by
    rcases hk with rfl | rfl <;> decide
  have h2 : ¬(k = "up".data ∨ k = "k".data) := by
    rcases hk with rfl | rfl <;> decide
  unfold updateKey
  rw [if_neg h1, if_neg h2, if_pos hk, hs]

/-- Keys `down`/`j` on the chart list (main.go:280-283). -/
lemma updateKey_downKeys_chartList (m : Model) (k : List Char)
    (hk : k = "down".data ∨ k = "j".data) (hs : m.state = State.stateChartList) :
    updateKey m k
      = (if m.cursor < m.charts.length - 1 then { m with cursor := m.cursor + 1 } else m,
         Cmd.none) := by
  have h1 : ¬(k = "ctrl+c".data ∨ k = "q".data) := by
    rcases hk with rfl | rfl <;> decide
  have h2 : ¬(k = "up".data ∨ k = "k".data) := by
    rcases hk with rfl | rfl <;> decide
  unfold updateKey
  rw [if_neg h1, if_neg h2, if_pos hk, hs]

/-- Keys `down`/`j` on the version list (main.go:284-287). -/
lemma updateKey_downKeys_versionList (m : Model) (k : List Char)
    (hk : k = "down".data ∨ k = "j".data) (hs : m.state = State.stateVersionList) :
    updateKey m k
      = (if m.cursor < m.versions.length - 1 then { m with cursor := m.cursor + 1 } else m,
         Cmd.none) := by
  have h1 : ¬(k = "ctrl+c".data ∨ k = "q".data) := by
    rcases hk with rfl | rfl <;> decide
  have h2 : ¬(k = "up".data ∨ k = "k".data) := by
    rcases hk with rfl | rfl <;> decide
  unfold updateKey
  rw [if_neg h1, if_neg h2, if_pos hk, hs]

/-- Keys `down`/`j` outside the list screens does nothing (main.go:288-289). -/
lemma updateKey_downKeys_other (m : Model) (k : List Char)
    (hk : k = "down".data ∨ k = "j".data)
    (hs1 : m.state ≠ State.stateRepoList) (hs2 : m.state ≠ State.stateChartList)
    (hs3 : m.state ≠ State.stateVersionList) :
    updateKey m k = (m, Cmd.none) := by
  have h1 : ¬(k = "ctrl+c".data ∨ k = "q".data) := by
    rcases hk with rfl | rfl <;> decide
  have h2 : ¬(k = "up".data ∨ k = "k".data) := by
    rcases hk with rfl | rfl <;> decide
  unfold updateKey
  rw [if_neg h1, if_neg h2, if_pos hk]
  cases hst : m.state <;>
    first
      | rfl
      | exact absurd hst hs1
      | exact absurd hst hs2
      | exact absurd hst hs3

/-- Keys `enter`/space on the repository list selects the repository under the
cursor and issues the chart fetch (main.go:294-301). -/
lemma updateKey_selectKeys_repoList (m : Model) (k : List Char)
    (hk : k = "enter".data ∨ k = " ".data) (hs : m.state = State.stateRepoList) :
    updateKey m k
      = if m.repos.length > 0 then
          ({ m with selectedRepo := m.cursor, cursor := 0, loading := true,
                    state := State.stateChartList },
           Cmd.loadCharts (m.repos.getD m.cursor default).name)
        else (m, Cmd.none) := by
  have h1 : ¬(k = "ctrl+c".data ∨ k = "q".data) := by
    rcases hk with rfl | rfl <;> decide
  have h2 : ¬(k = "up".data ∨ k = "k".data) := by
    rcases hk with rfl | rfl <;> decide
  have h3 : ¬(k = "down".data ∨ k = "j".data) := by
    rcases hk with rfl | rfl <;> decide
  unfold updateKey
  rw [if_neg h1, if_neg h2, if_neg h3, if_pos hk, hs]

/-- Keys `enter`/space on the chart list (main.go:302-309). -/
lemma updateKey_selectKeys_chartList (m : Model) (k : List Char)
    (hk : k = "enter".data ∨ k = " ".data) (hs : m.state = State.stateChartList) :
    updateKey m k
      = if m.charts.length > 0 then
          ({ m with selectedChart := m.cursor, cursor := 0, loading := true,
                    state := State.stateVersionList },
           Cmd.loadVersions (m.charts.getD m.cursor default).name)
        else (m, Cmd.none) := by
  have h1 : ¬(k = "ctrl+c".data ∨ k = "q".data) := by
    rcases hk with rfl | rfl <;> decide
  have h2 : ¬(k = "up".data ∨ k = "k".data) := by
    rcases hk with rfl | rfl <;> decide
  have h3 : ¬(k = "down".data ∨ k = "j".data) := by
    rcases hk with rfl | rfl <;> decide
  unfold updateKey
  rw [if_neg h1, if_neg h2, if_neg h3, if_pos hk, hs]

/-- Keys `enter`/space on the version list records the version and issues the
download; the cursor is not reset (main.go:310-316). -/
lemma updateKey_selectKeys_versionList (m : Model) (k : List Char)
    (hk : k = "enter".data ∨ k = " ".data) (hs : m.state = State.stateVersionList) :
    updateKey m k
      = if m.versions.length > 0 then
          ({ m with selectedVersion := m.cursor, loading := true,
                    state := State.stateDownload },
           Cmd.downloadValues (m.versions.getD m.cursor default).name
             (m.versions.getD m.cursor default).version)
        else (m, Cmd.none) := by
  have h1 : ¬(k = "ctrl+c".data ∨ k = "q".data) := by
    rcases hk with rfl | rfl <;> decide
  have h2 : ¬(k = "up".data ∨ k = "k".data) := by
    rcases hk with rfl | rfl <;> decide
  have h3 : ¬(k = "down".data ∨ k = "j".data) := by
    rcases hk with rfl | rfl <;> decide
  unfold updateKey
  rw [if_neg h1, if_neg h2, if_neg h3, if_pos hk, hs]

/-- Keys `enter`/space on the Complete screen quits (main.go:317-319). -/
lemma updateKey_selectKeys_complete (m : Model) (k : List Char)
    (hk : k = "enter".data ∨ k = " ".data) (hs : m.state = State.stateComplete) :
    updateKey m k = (m, Cmd.quit) := by
  have h1 : ¬(k = "ctrl+c".data ∨ k = "q".data) := by
    rcases hk with rfl | rfl <;> decide
  have h2 : ¬(k = "up".data ∨ k = "k".data) := by
    rcases hk with rfl | rfl <;> decide
  have h3 : ¬(k = "down".data ∨ k = "j".data) := by
    rcases hk with rfl | rfl <;> decide
  unfold updateKey
  rw [if_neg h1, if_neg h2, if_neg h3, if_pos hk, hs]

/-- Keys `enter`/space on the remaining screens does nothing (main.go:320-321). -/
lemma updateKey_selectKeys_other (m : Model) (k : List Char)
    (hk : k = "enter".data ∨ k = " ".data)
    (hs1 : m.state ≠ State.stateRepoList) (hs2 : m.state ≠ State.stateChartList)
    (hs3 : m.state ≠ State.stateVersionList) (hs4 : m.state ≠ State.stateComplete) :
    updateKey m k = (m, Cmd.none) := by
  have h1 : ¬(k = "ctrl+c".data ∨ k = "q".data) := by
    rcases hk with rfl | rfl <;> decide
  have h2 : ¬(k = "up".data ∨ k = "k".data) := by
    rcases hk with rfl | rfl <;> decide
  have h3 : ¬(k = "down".data ∨ k = "j".data) := by
    rcases hk with rfl | rfl <;> decide
  unfold updateKey
  rw [if_neg h1, if_neg h2, if_neg h3, if_pos hk]
  cases hst : m.state <;>
    first
      | rfl
      | exact absurd hst hs1
      | exact absurd hst hs2
      | exact absurd hst hs3
      | exact absurd hst hs4

/-- Keys `backspace`/`esc` on the chart list goes back to the repository list,
restoring the cursor to the recorded repository and discarding the loaded
charts (main.go:326-329). -/
lemma updateKey_backKeys_chartList (m : Model) (k : List Char)
    (hk : k = "backspace".data ∨ k = "esc".data) (hs : m.state = State.stateChartList) :
    updateKey m k
      = ({ m with state := State.stateRepoList, cursor := m.selectedRepo, charts := [] },
         Cmd.none) := by
  have h1 : ¬(k = "ctrl+c".data ∨ k = "q".data) := by
    rcases hk with rfl | rfl <;> decide
  have h2 : ¬(k = "up".data ∨ k = "k".data) := by
    rcases hk with rfl | rfl <;> decide
  have h3 : ¬(k = "down".data ∨ k = "j".data) := by
    rcases hk with rfl | rfl <;> decide
  have h4 : ¬(k = "enter".data ∨ k = " ".data) := by
    rcases hk with rfl | rfl <;> decide
  unfold updateKey
  rw [if_neg h1, if_neg h2, if_neg h3, if_neg h4, if_pos hk, hs]

/-- Keys `backspace`/`esc` on the version list goes back to the chart list,
restoring the cursor to the recorded chart and discarding the loaded
versions (main.go:330-333). -/
lemma updateKey_backKeys_versionList (m : Model) (k : List Char)
    (hk : k = "backspace".data ∨ k = "esc".data) (hs : m.state = State.stateVersionList) :
    updateKey m k
      = ({ m with state := State.stateChartList, cursor := m.selectedChart, versions := [] },
         Cmd.none) := by
  have h1 : ¬(k = "ctrl+c".data ∨ k = "q".data) := by
    rcases hk with rfl | rfl <;> decide
  have h2 : ¬(k = "up".data ∨ k = "k".data) := by
    rcases hk with rfl | rfl <;> decide
  have h3 : ¬(k = "down".data ∨ k = "j".data) := by
    rcases hk with rfl | rfl <;> decide
  have h4 : ¬(k = "enter".data ∨ k = " ".data) := by
    rcases hk with rfl | rfl <;> decide
  unfold updateKey
  rw [if_neg h1, if_neg h2, if_neg h3, if_neg h4, if_pos hk, hs]

/-- Keys `backspace`/`esc` on the Complete screen quits (main.go:334-335). -/
lemma updateKey_backKeys_complete (m : Model) (k : List Char)
    (hk : k = "backspace".data ∨ k = "esc".data) (hs : m.state = State.stateComplete) :
    updateKey m k = (m, Cmd.quit) := by
  have h1 : ¬(k = "ctrl+c".data ∨ k = "q".data) := by
    rcases hk with rfl | rfl <;> decide
  have h2 : ¬(k = "up".data ∨ k = "k".data) := by
    rcases hk with rfl | rfl <;> decide
  have h3 : ¬(k = "down".data ∨ k = "j".data) := by
    rcases hk with rfl | rfl <;> decide
  have h4 : ¬(k = "enter".data ∨ k = " ".data) := by
    rcases hk with rfl | rfl <;> decide
  unfold updateKey
  rw [if_neg h1, if_neg h2, if_neg h3, if_neg h4, if_pos hk, hs]

/-- Keys `backspace`/`esc` on the remaining screens does nothing
(main.go:336-337). -/
lemma updateKey_backKeys_other (m : Model) (k : List Char)
    (hk : k = "backspace".data ∨ k = "esc".data)
    (hs2 : m.state ≠ State.stateChartList) (hs3 : m.state ≠ State.stateVersionList)
    (hs4 : m.state ≠ State.stateComplete) :
    updateKey m k = (m, Cmd.none) := by
  have h1 : ¬(k = "ctrl+c".data ∨ k = "q".data) := by
    rcases hk with rfl | rfl <;> decide
  have h2 : ¬(k = "up".data ∨ k = "k".data) := by
    rcases hk with rfl | rfl <;> decide
  have h3 : ¬(k = "down".data ∨ k = "j".data) := by
    rcases hk with rfl | rfl <;> decide
  have h4 : ¬(k = "enter".data ∨ k = " ".data) := by
    rcases hk with rfl | rfl <;> decide
  unfold updateKey
  rw [if_neg h1, if_neg h2, if_neg h3, if_neg h4, if_pos hk]
  cases hst : m.state <;>
    first
      | rfl
      | exact absurd hst hs2
      | exact absurd hst hs3
      | exact absurd hst hs4

/-- A digit key is none of the specially handled key strings. -/
lemma digitKey_not_special (c : Char) (hc : c.isDigit = true) :
    ¬([c] = "ctrl+c".data ∨ [c] = "q".data) ∧
    ¬([c] = "up".data ∨ [c] = "k".data) ∧
    ¬([c] = "down".data ∨ [c] = "j".data) ∧
    ¬([c] = "enter".data ∨ [c] = " ".data) ∧
    ¬([c] = "backspace".data ∨ [c] = "esc".data) := by
  refine ⟨?_, ?_, ?_, ?_, ?_⟩ <;>
    rintro (h | h) <;> simp at h <;> (subst h; exact absurd hc (by decide))

/-- Value of `atoi1` on a digit character. -/
lemma atoi1_digit (c : Char) (hc : c.isDigit = true) :
    atoi1 c = some (c.toNat - '0'.toNat) := by
  unfold atoi1
  rw [if_pos hc]

/-- A digit key on the repository list resolves `pageStart + digit - 1`
and selects it when in range (main.go:350-359). -/
lemma updateKey_digit_repoList (m : Model) (c : Char) (hc : c.isDigit = true)
    (hs : m.state = State.stateRepoList) :
    updateKey m [c]
      = if c.toNat - '0'.toNat ≥ 1 ∧ c.toNat - '0'.toNat ≤ pageSize then
          (if m.getPageStart + (c.toNat - '0'.toNat) - 1 < m.repos.length then
            ({ m with selectedRepo := m.getPageStart + (c.toNat - '0'.toNat) - 1, cursor := 0,
                      loading := true, state := State.stateChartList },
             Cmd.loadCharts
               (m.repos.getD (m.getPageStart + (c.toNat - '0'.toNat) - 1) default).name)
          else (m, Cmd.none))
        else (m, Cmd.none) := by
  obtain ⟨h1, h2, h3, h4, h5⟩ := digitKey_not_special c hc
  have hsc : m.state ≠ State.stateComplete := by
    rw [hs]
    decide
  unfold updateKey
  rw [if_neg h1, if_neg h2, if_neg h3, if_neg h4, if_neg h5, if_neg hsc]
  dsimp only
  rw [atoi1_digit c hc]
  dsimp only
  rw [hs]

/-- A digit key on the chart list (main.go:360-369). -/
lemma updateKey_digit_chartList (m : Model) (c : Char) (hc : c.isDigit = true)
    (hs : m.state = State.stateChartList) :
    updateKey m [c]
      = if c.toNat - '0'.toNat ≥ 1 ∧ c.toNat - '0'.toNat ≤ pageSize then
          (if m.getPageStart + (c.toNat - '0'.toNat) - 1 < m.charts.length then
            ({ m with selectedChart := m.getPageStart + (c.toNat - '0'.toNat) - 1, cursor := 0,
                      loading := true, state := State.stateVersionList },
             Cmd.loadVersions
               (m.charts.getD (m.getPageStart + (c.toNat - '0'.toNat) - 1) default).name)
          else (m, Cmd.none))
        else (m, Cmd.none) := by
  obtain ⟨h1, h2, h3, h4, h5⟩ := digitKey_not_special c hc
  have hsc : m.state ≠ State.stateComplete := by
    rw [hs]
    decide
  unfold updateKey
  rw [if_neg h1, if_neg h2, if_neg h3, if_neg h4, if_neg h5, if_neg hsc]
  dsimp only
  rw [atoi1_digit c hc]
  dsimp only
  rw [hs]

/-- A digit key on the version list; the cursor is not reset
(main.go:370-378). -/
lemma updateKey_digit_versionList (m : Model) (c : Char) (hc : c.isDigit = true)
    (hs : m.state = State.stateVersionList) :
    updateKey m [c]
      = if c.toNat - '0'.toNat ≥ 1 ∧ c.toNat - '0'.toNat ≤ pageSize then
          (if m.getPageStart + (c.toNat - '0'.toNat) - 1 < m.versions.length then
            ({ m with selectedVersion := m.getPageStart + (c.toNat - '0'.toNat) - 1,
                      loading := true, state := State.stateDownload },
             Cmd.downloadValues
               (m.versions.getD (m.getPageStart + (c.toNat - '0'.toNat) - 1) default).name
               (m.versions.getD (m.getPageStart + (c.toNat - '0'.toNat) - 1) default).version)
          else (m, Cmd.none))
        else (m, Cmd.none) := by
  obtain ⟨h1, h2, h3, h4, h5⟩ := digitKey_not_special c hc
  have hsc : m.state ≠ State.stateComplete := by
    rw [hs]
    decide
  unfold updateKey
  rw [if_neg h1, if_neg h2, if_neg h3, if_neg h4, if_neg h5, if_neg hsc]
  dsimp only
  rw [atoi1_digit c hc]
  dsimp only
  rw [hs]

/-- A digit key on the non-list, non-Complete screens does nothing
(main.go:379-380). -/
lemma updateKey_digit_other (m : Model) (c : Char) (hc : c.isDigit = true)
    (hs1 : m.state ≠ State.stateRepoList) (hs2 : m.state ≠ State.stateChartList)
    (hs3 : m.state ≠ State.stateVersionList) (hs4 : m.state ≠ State.stateComplete) :
    updateKey m [c] = (m, Cmd.none) := by
  obtain ⟨h1, h2, h3, h4, h5⟩ := digitKey_not_special c hc
  unfold updateKey
  rw [if_neg h1, if_neg h2, if_neg h3, if_neg h4, if_neg h5, if_neg hs4]
  dsimp only
  rw [atoi1_digit c hc]
  dsimp only
  by_cases hnum : c.toNat - '0'.toNat ≥ 1 ∧ c.toNat - '0'.toNat ≤ pageSize
  · rw [if_pos hnum]
    cases hst : m.state <;>
      first
        | rfl
        | exact absurd hst hs1
        | exact absurd hst hs2
        | exact absurd hst hs3
  · rw [if_neg hnum]

/-- Any key that is none of the special strings quits on the Complete
screen (main.go:341-344). -/
lemma updateKey_nonspecial_complete (m : Model) (k : List Char)
    (h1 : ¬(k = "ctrl+c".data ∨ k = "q".data))
    (h2 : ¬(k = "up".data ∨ k = "k".data))
    (h3 : ¬(k = "down".data ∨ k = "j".data))
    (h4 : ¬(k = "enter".data ∨ k = " ".data))
    (h5 : ¬(k = "backspace".data ∨ k = "esc".data))
    (hs : m.state = State.stateComplete) :
    updateKey m k = (m, Cmd.quit) := by
  unfold updateKey
  rw [if_neg h1, if_neg h2, if_neg h3, if_neg h4, if_neg h5, if_pos hs]

/-- Any key that is none of the special strings does nothing on the
non-list, non-Complete screens (main.go:340-383). -/
lemma updateKey_nonspecial_other (m : Model) (k : List Char)
    (h1 : ¬(k = "ctrl+c".data ∨ k = "q".data))
    (h2 : ¬(k = "up".data ∨ k = "k".data))
    (h3 : ¬(k = "down".data ∨ k = "j".data))
    (h4 : ¬(k = "enter".data ∨ k = " ".data))
    (h5 : ¬(k = "backspace".data ∨ k = "esc".data))
    (hs1 : m.state ≠ State.stateRepoList) (hs2 : m.state ≠ State.stateChartList)
    (hs3 : m.state ≠ State.stateVersionList) (hs4 : m.state ≠ State.stateComplete) :
    updateKey m k = (m, Cmd.none) := by
  unfold updateKey
  rw [if_neg h1, if_neg h2, if_neg h3, if_neg h4, if_neg h5, if_neg hs4]
  rcases k with _ | ⟨c, _ | ⟨c2, k⟩⟩
  · rfl
  · dsimp only
    by_cases hc : c.isDigit
    · rw [atoi1_digit c hc]
      dsimp only
      by_cases hnum : c.toNat - '0'.toNat ≥ 1 ∧ c.toNat - '0'.toNat ≤ pageSize
      · rw [if_pos hnum]
        cases hst : m.state <;>
          first
            | rfl
            | exact absurd hst hs1
            | exact absurd hst hs2
            | exact absurd hst hs3
      · rw [if_neg hnum]
    · unfold atoi1
      rw [if_neg hc]
  · rfl

/-- Function `splitOnChar` never returns the empty list (Go `strings.Split` with a
non-empty separator returns at least one chunk). -/
lemma splitOnChar_ne_nil (sep : Char) (l : List Char) : splitOnChar sep l ≠ [] := by
  induction l with
  | nil => simp [splitOnChar]
  | cons c cs ih =>
    simp only [splitOnChar]
    cases hs : splitOnChar sep cs with
    | nil => exact absurd hs ih
    | cons w ws =>
      split_ifs <;> simp

/-- Splitting a chunk free of the separator yields just that chunk. -/
lemma splitOnChar_no_sep (sep : Char) (l : List Char) (h : sep ∉ l) :
    splitOnChar sep l = [l] := by
  induction l with
  | nil => rfl
  | cons c cs ih =>
    have hc : ¬c = sep := fun e => h (e ▸ List.mem_cons_self c cs)
    have hcs : sep ∉ cs := fun hm => h (List.mem_cons_of_mem c hm)
    simp only [splitOnChar, ih hcs]
    rw [if_neg hc]

/-- A string containing the separator splits into at least two chunks. -/
lemma two_le_splitOnChar_length (sep : Char) (xs ys : List Char) :
    2 ≤ (splitOnChar sep (xs ++ sep :: ys)).length := by
  induction xs with
  | nil =>
    simp only [List.nil_append, splitOnChar]
    cases hs : splitOnChar sep ys with
    | nil => exact absurd hs (splitOnChar_ne_nil sep ys)
    | cons w ws =>
      simp
  | cons c xs ih =>
    simp only [List.cons_append, splitOnChar]
    cases hs : splitOnChar sep (xs ++ sep :: ys) with
    | nil => exact absurd hs (splitOnChar_ne_nil sep (xs ++ sep :: ys))
    | cons w ws =>
      rw [hs] at ih
      simp only [List.length_cons] at ih
      split_ifs <;> simp <;> omega

/-- The last chunk of a split is the text after the final separator. -/
lemma getLastD_splitOnChar (sep : Char) (xs ys : List Char) (h : sep ∉ ys) :
    (splitOnChar sep (xs ++ sep :: ys)).getLastD [] = ys := by
  induction xs with
  | nil =>
    simp only [List.nil_append, splitOnChar, splitOnChar_no_sep sep ys h]
    simp [List.getLastD_cons]
  | cons c xs ih =>
    simp only [List.cons_append, splitOnChar]
    cases hs : splitOnChar sep (xs ++ sep :: ys) with
    | nil => exact absurd hs (splitOnChar_ne_nil sep (xs ++ sep :: ys))
    | cons w ws =>
      rw [hs] at ih
      have h2 := two_le_splitOnChar_length sep xs ys
      rw [hs] at h2
      cases ws with
      | nil => simp at h2
      | cons z zs =>
        split_ifs with hc
        · rw [List.getLastD_cons]
          exact ih
        · rw [List.getLastD_cons]
          rw [List.getLastD_cons] at ih
          rw [List.getLastD_cons] at ih ⊢
          exact ih

/-- Claim C1: on a full first page of ten repositories the 10th item is
in range, yet the `0` key leaves the Session unchanged — the
`strconv.Atoi` guard `num >= 1` rejects the digit 0, so `0` never
resolves to `pageStart + 9` as the spec (and the program's own help
text) promise; digits 1-9 do resolve to `pageStart + digit - 1`. -/
theorem digitZero_ignored :
    mRepoTen.getPageStart + 9 < mRepoTen.repos.length ∧
    update mRepoTen (Msg.key "0".data) = (mRepoTen, Cmd.none) ∧
    update mRepoTen (Msg.key "3".data)
      = ({ mRepoTen with selectedRepo := 2, cursor := 0, loading := true,
                         state := State.stateChartList },
         Cmd.loadCharts (mRepoTen.repos.getD 2 default).name) := by
  refine ⟨by decide, by decide, by decide⟩

/-- Claim C3: a failure message moves any Session to the Failed screen
with the error text stored verbatim, and on the Failed screen no key
press mutates any field of the Session (the quit keys only terminate). -/
theorem failure_absorbing :
    (∀ (m : Model) (s : List Char),
      update m (Msg.errorMsg s)
        = ({ m with loading := false, state := State.stateError, error := s }, Cmd.none)) ∧
    (∀ (m : Model) (k : List Char), m.state = State.stateError →
      (update m (Msg.key k)).1 = m) := by
  refine ⟨fun m s => rfl, fun m k h => ?_⟩
  have hs1 : m.state ≠ State.stateRepoList := by
    rw [h]
    decide
  have hs2 : m.state ≠ State.stateChartList := by
    rw [h]
    decide
  have hs3 : m.state ≠ State.stateVersionList := by
    rw [h]
    decide
  have hs4 : m.state ≠ State.stateComplete := by
    rw [h]
    decide
  show (updateKey m k).1 = m
  by_cases h1 : k = "ctrl+c".data ∨ k = "q".data
  · rw [updateKey_quitKeys m k h1]
  · by_cases h2 : k = "up".data ∨ k = "k".data
    · rw [updateKey_upKeys_other m k h2 hs1 hs2 hs3]
    · by_cases h3 : k = "down".data ∨ k = "j".data
      · rw [updateKey_downKeys_other m k h3 hs1 hs2 hs3]
      · by_cases h4 : k = "enter".data ∨ k = " ".data
        · rw [updateKey_selectKeys_other m k h4 hs1 hs2 hs3 hs4]
        · by_cases h5 : k = "backspace".data ∨ k = "esc".data
          · rw [updateKey_backKeys_other m k h5 hs2 hs3 hs4]
          · rw [updateKey_nonspecial_other m k h1 h2 h3 h4 h5 hs1 hs2 hs3 hs4]

/-- Witness for C3: on a concrete failed Session, `backspace` changes
nothing. -/
theorem failure_absorbing_inst :
    (update mFailed (Msg.key "backspace".data)).1 = mFailed :=
  failure_absorbing.2 mFailed "backspace".data rfl

/-- Claim C4: `backspace`/`esc` on the chart list returns to the
repository list with the cursor restored to `selectedRepo` and the
charts discarded; on the version list it returns to the chart list with
the cursor restored to `selectedChart` and the versions discarded. -/
theorem backNavigation_restores (m : Model) (k : List Char)
    (hk : k = "backspace".data ∨ k = "esc".data) :
    (m.state = State.stateChartList →
      update m (Msg.key k)
        = ({ m with state := State.stateRepoList, cursor := m.selectedRepo, charts := [] },
           Cmd.none)) ∧
    (m.state = State.stateVersionList →
      update m (Msg.key k)
        = ({ m with state := State.stateChartList, cursor := m.selectedChart, versions := [] },
           Cmd.none)) :=
  ⟨fun h => updateKey_backKeys_chartList m k hk h,
   fun h => updateKey_backKeys_versionList m k hk h⟩

/-- Witness for C4: concrete back-navigation from a loaded chart list. -/
theorem backNavigation_restores_inst :
    update mChartLoading (Msg.key "esc".data)
      = ({ mChartLoading with state := State.stateRepoList, cursor := mChartLoading.selectedRepo,
                              charts := [] }, Cmd.none) :=
  (backNavigation_restores mChartLoading "esc".data (Or.inr rfl)).1 rfl

/-- Claim C9: the artifact filename is the package's qualified name with
its `repository/` prefix stripped, joined with the version as
`base-version-default-values.yaml`; a download-complete message moves
the Session to Complete with a message containing that filename. -/
theorem artifact_filename :
    (∀ repo chart version : List Char, '/' ∉ chart →
      valuesFilename (repo ++ '/' :: chart) version
        = chart ++ ('-' :: version) ++ "-default-values.yaml".data) ∧
    (∀ (m : Model) (fn : List Char),
      (update m (Msg.downloadCompleteMsg fn)).1.state = State.stateComplete ∧
      fn <:+: (update m (Msg.downloadCompleteMsg fn)).1.message) := by
  constructor
  · intro repo chart version h
    unfold valuesFilename
    rw [getLastD_splitOnChar '/' repo chart h]
  · intro m fn
    refine ⟨rfl, "Successfully downloaded: ".data, [], ?_⟩
    rw [List.append_nil]
    rfl

/-- Witness for C9 at the spec's Scenario C input. -/
theorem artifact_filename_inst :
    valuesFilename "argo/argo-cd".data "5.46.8".data
      = "argo-cd-5.46.8-default-values.yaml".data ∧
    (update initialModel
        (Msg.downloadCompleteMsg "argo-cd-5.46.8-default-values.yaml".data)).1.state
      = State.stateComplete := by
  constructor
  · have e : "argo/argo-cd".data = "argo".data ++ '/' :: "argo-cd".data := by decide
    have h := artifact_filename.1 "argo".data "argo-cd".data "5.46.8".data (by decide)
    rw [e, h]
    decide
  · exact (artifact_filename.2 initialModel "argo-cd-5.46.8-default-values.yaml".data).1

/-- Claim C10: a cursor-movement key (`up`/`k`/`down`/`j`) changes at
most the `cursor` field of the Session — every other field is kept — and
issues no command. -/
theorem movement_frame (m : Model) (k : List Char)
    (hk : k = "up".data ∨ k = "k".data ∨ k = "down".data ∨ k = "j".data) :
    ∃ c : Nat, update m (Msg.key k) = ({ m with cursor := c }, Cmd.none) := by
  have hup : ∀ k', (k' = "up".data ∨ k' = "k".data) →
      ∃ c : Nat, update m (Msg.key k') = ({ m with cursor := c }, Cmd.none) := by
    intro k' hk'
    by_cases hs : m.state = State.stateRepoList ∨ m.state = State.stateChartList ∨
      m.state = State.stateVersionList
    · refine ⟨if m.cursor > 0 then m.cursor - 1 else m.cursor, ?_⟩
      show updateKey m k' = _
      rw [updateKey_upKeys m k' hk' hs]
      split_ifs <;> rfl
    · push_neg at hs
      refine ⟨m.cursor, ?_⟩
      show updateKey m k' = _
      rw [updateKey_upKeys_other m k' hk' hs.1 hs.2.1 hs.2.2]
  have hdown : ∀ k', (k' = "down".data ∨ k' = "j".data) →
      ∃ c : Nat, update m (Msg.key k') = ({ m with cursor := c }, Cmd.none) := by
    intro k' hk'
    by_cases h1 : m.state = State.stateRepoList
    · refine ⟨if m.cursor < m.repos.length - 1 then m.cursor + 1 else m.cursor, ?_⟩
      show updateKey m k' = _
      rw [updateKey_downKeys_repoList m k' hk' h1]
      split_ifs <;> rfl
    · by_cases h2 : m.state = State.stateChartList
      · refine ⟨if m.cursor < m.charts.length - 1 then m.cursor + 1 else m.cursor, ?_⟩
        show updateKey m k' = _
        rw [updateKey_downKeys_chartList m k' hk' h2]
        split_ifs <;> rfl
      · by_cases h3 : m.state = State.stateVersionList
        · refine ⟨if m.cursor < m.versions.length - 1 then m.cursor + 1 else m.cursor, ?_⟩
          show updateKey m k' = _
          rw [updateKey_downKeys_versionList m k' hk' h3]
          split_ifs <;> rfl
        · refine ⟨m.cursor, ?_⟩
          show updateKey m k' = _
          rw [updateKey_downKeys_other m k' hk' h1 h2 h3]
  rcases hk with hk' | hk' | hk' | hk'
  · exact hup _ (Or.inl hk')
  · exact hup _ (Or.inr hk')
  · exact hdown _ (Or.inl hk')
  · exact hdown _ (Or.inr hk')

/-- Witness for C10: the `j` key on a loaded repository list only moves
the cursor. -/
theorem movement_frame_inst :
    ∃ c : Nat, update mRepoTen (Msg.key "j".data) = ({ mRepoTen with cursor := c }, Cmd.none) :=
  movement_frame mRepoTen "j".data (by decide)

/-- Claim C5: on a list screen showing `L` items, `up`/`k` and `down`/`j`
keep the cursor inside `[0, L-1]` when `L > 0` (up stops at 0, down
stops at `L-1`, no wraparound), and leave the cursor at 0 when `L = 0`. -/
theorem cursor_clamped (m : Model) (k : List Char)
    (hk : k = "up".data ∨ k = "k".data ∨ k = "down".data ∨ k = "j".data)
    (hs : m.state = State.stateRepoList ∨ m.state = State.stateChartList ∨
      m.state = State.stateVersionList) :
    (0 < activeLen m → m.cursor < activeLen m →
      (update m (Msg.key k)).1.cursor < activeLen m) ∧
    (activeLen m = 0 → m.cursor = 0 → (update m (Msg.key k)).1.cursor = 0) ∧
    ((k = "up".data ∨ k = "k".data) → m.cursor = 0 →
      (update m (Msg.key k)).1.cursor = 0) ∧
    ((k = "down".data ∨ k = "j".data) → m.cursor = activeLen m - 1 →
      (update m (Msg.key k)).1.cursor = activeLen m - 1) := by
  have eu : ∀ k', update m (Msg.key k') = updateKey m k' := fun _ => rfl
  rw [eu]
  rcases hs with hs | hs | hs <;>
    (first
      | rw [activeLen_repoList m hs]
      | rw [activeLen_chartList m hs]
      | rw [activeLen_versionList m hs]) <;>
    rcases hk with rfl | rfl | rfl | rfl <;>
      first
        | (rw [updateKey_upKeys m _ (by first | exact Or.inl rfl | exact Or.inr rfl)
              (by first
                    | exact Or.inl hs
                    | exact Or.inr (Or.inl hs)
                    | exact Or.inr (Or.inr hs))]
           refine ⟨fun hL hcur => ?_, fun hL hcur => ?_, fun _ hcur => ?_,
             fun hd => absurd hd (by decide)⟩ <;>
             (dsimp only; split_ifs with hx <;> (try dsimp only) <;> omega))
        | (rw [updateKey_downKeys_repoList m _
              (by first | exact Or.inl rfl | exact Or.inr rfl) hs]
           refine ⟨fun hL hcur => ?_, fun hL hcur => ?_, fun hd => absurd hd (by decide),
             fun _ hcur => ?_⟩ <;>
             (dsimp only; split_ifs with hx <;> (try dsimp only) <;> omega))
        | (rw [updateKey_downKeys_chartList m _
              (by first | exact Or.inl rfl | exact Or.inr rfl) hs]
           refine ⟨fun hL hcur => ?_, fun hL hcur => ?_, fun hd => absurd hd (by decide),
             fun _ hcur => ?_⟩ <;>
             (dsimp only; split_ifs with hx <;> (try dsimp only) <;> omega))
        | (rw [updateKey_downKeys_versionList m _
              (by first | exact Or.inl rfl | exact Or.inr rfl) hs]
           refine ⟨fun hL hcur => ?_, fun hL hcur => ?_, fun hd => absurd hd (by decide),
             fun _ hcur => ?_⟩ <;>
             (dsimp only; split_ifs with hx <;> (try dsimp only) <;> omega))

/-- Witness for C5: `j` on the ten-repository list keeps the cursor in
range. -/
theorem cursor_clamped_inst :
    (update mRepoTen (Msg.key "j".data)).1.cursor < activeLen mRepoTen := by
  have h := cursor_clamped mRepoTen "j".data (by decide) (by decide)
  exact h.1 (by decide) (by decide)

/-- Claim C6 (amended): no key handler consults the loading flag, so
navigation input is not blocked while a fetch is in flight — back keys
mutate a loading Session, and in the Session they produce (still
loading, non-empty list) cursor movement and select mutate it too.  What
is true is configuration-based: whenever the active list is empty and
the cursor is 0, the configuration in which a list screen starts
loading, cursor-movement, select, and numeric-shortcut key presses
leave the Session unchanged, loading or not. -/
theorem loading_input_inert (m : Model) (k : List Char)
    (hlen : activeLen m = 0) (hcur : m.cursor = 0)
    (hk : k = "up".data ∨ k = "k".data ∨ k = "down".data ∨ k = "j".data ∨
      k = "enter".data ∨ k = " ".data ∨ ∃ c, k = [c] ∧ c.isDigit = true) :
    (update m (Msg.key k)).1 = m := by
  have upCase : ∀ k', (k' = "up".data ∨ k' = "k".data) → (update m (Msg.key k')).1 = m := by
    intro k' hk'
    show (updateKey m k').1 = m
    by_cases hs : m.state = State.stateRepoList ∨ m.state = State.stateChartList ∨
      m.state = State.stateVersionList
    · rw [updateKey_upKeys m k' hk' hs, hcur]
      rfl
    · push_neg at hs
      rw [updateKey_upKeys_other m k' hk' hs.1 hs.2.1 hs.2.2]
  have downCase : ∀ k', (k' = "down".data ∨ k' = "j".data) →
      (update m (Msg.key k')).1 = m := by
    intro k' hk'
    show (updateKey m k').1 = m
    by_cases h1 : m.state = State.stateRepoList
    · have hL : m.repos.length = 0 := by
        rw [← activeLen_repoList m h1]
        exact hlen
      rw [updateKey_downKeys_repoList m k' hk' h1, hcur, hL]
      rfl
    · by_cases h2 : m.state = State.stateChartList
      · have hL : m.charts.length = 0 := by
          rw [← activeLen_chartList m h2]
          exact hlen
        rw [updateKey_downKeys_chartList m k' hk' h2, hcur, hL]
        rfl
      · by_cases h3 : m.state = State.stateVersionList
        · have hL : m.versions.length = 0 := by
            rw [← activeLen_versionList m h3]
            exact hlen
          rw [updateKey_downKeys_versionList m k' hk' h3, hcur, hL]
          rfl
        · rw [updateKey_downKeys_other m k' hk' h1 h2 h3]
  have selectCase : ∀ k', (k' = "enter".data ∨ k' = " ".data) →
      (update m (Msg.key k')).1 = m := by
    intro k' hk'
    show (updateKey m k').1 = m
    by_cases h1 : m.state = State.stateRepoList
    · have hL : m.repos.length = 0 := by
        rw [← activeLen_repoList m h1]
        exact hlen
      rw [updateKey_selectKeys_repoList m k' hk' h1, hL]
      rfl
    · by_cases h2 : m.state = State.stateChartList
      · have hL : m.charts.length = 0 := by
          rw [← activeLen_chartList m h2]
          exact hlen
        rw [updateKey_selectKeys_chartList m k' hk' h2, hL]
        rfl
      · by_cases h3 : m.state = State.stateVersionList
        · have hL : m.versions.length = 0 := by
            rw [← activeLen_versionList m h3]
            exact hlen
          rw [updateKey_selectKeys_versionList m k' hk' h3, hL]
          rfl
        · by_cases h4 : m.state = State.stateComplete
          · rw [updateKey_selectKeys_complete m k' hk' h4]
          · rw [updateKey_selectKeys_other m k' hk' h1 h2 h3 h4]
  have digitCase : ∀ c : Char, c.isDigit = true → (update m (Msg.key [c])).1 = m := by
    intro c hc
    show (updateKey m [c]).1 = m
    by_cases h1 : m.state = State.stateRepoList
    · have hL : m.repos.length = 0 := by
        rw [← activeLen_repoList m h1]
        exact hlen
      rw [updateKey_digit_repoList m c hc h1, hL]
      split_ifs with ha hb <;> first | rfl | omega
    · by_cases h2 : m.state = State.stateChartList
      · have hL : m.charts.length = 0 := by
          rw [← activeLen_chartList m h2]
          exact hlen
        rw [updateKey_digit_chartList m c hc h2, hL]
        split_ifs with ha hb <;> first | rfl | omega
      · by_cases h3 : m.state = State.stateVersionList
        · have hL : m.versions.length = 0 := by
            rw [← activeLen_versionList m h3]
            exact hlen
          rw [updateKey_digit_versionList m c hc h3, hL]
          split_ifs with ha hb <;> first | rfl | omega
        · by_cases h4 : m.state = State.stateComplete
          · obtain ⟨g1, g2, g3, g4, g5⟩ := digitKey_not_special c hc
            rw [updateKey_nonspecial_complete m [c] g1 g2 g3 g4 g5 h4]
          · rw [updateKey_digit_other m c hc h1 h2 h3 h4]
  rcases hk with hk | hk | hk | hk | hk | hk | ⟨c, rfl, hc⟩
  · exact upCase _ (Or.inl hk)
  · exact upCase _ (Or.inr hk)
  · exact downCase _ (Or.inl hk)
  · exact downCase _ (Or.inr hk)
  · exact selectCase _ (Or.inl hk)
  · exact selectCase _ (Or.inr hk)
  · exact digitCase c hc

/-- Witness for C6 (amended): `down` during a chart fetch (empty chart
list, cursor 0) changes nothing. -/
theorem loading_input_inert_inst :
    (update mChartLoading (Msg.key "down".data)).1 = mChartLoading :=
  loading_input_inert mChartLoading "down".data rfl rfl
    (Or.inr (Or.inr (Or.inl rfl)))

/-- Counterexample to C6 as stated: with the chart fetch still in flight
(`loading = true`), the back key mutates the Session (it jumps back to
the repository list and restores the cursor), and the Session it
produces still has `loading = true` yet is mutated again by the `j`
cursor-movement key — so while loading, neither back nor cursor
movement leaves the Session unchanged. -/
theorem back_during_loading_mutates :
    mChartLoading.loading = true ∧
    (update mChartLoading (Msg.key "backspace".data)).1 ≠ mChartLoading ∧
    (update mChartLoading (Msg.key "backspace".data)).1.loading = true ∧
    (update (update mChartLoading (Msg.key "backspace".data)).1 (Msg.key "j".data)).1
      ≠ (update mChartLoading (Msg.key "backspace".data)).1 := by
  decide

/-- Claim C8 (amended): on the Complete screen every key quits except the
cursor-movement keys, which leave the Session unchanged and do nothing;
on the Failed screen only `q`/`ctrl+c` quit, and every other key leaves
the Session unchanged and does nothing. -/
theorem terminal_screen_keys (m : Model) (k : List Char) :
    (m.state = State.stateComplete →
      (((k = "up".data ∨ k = "k".data ∨ k = "down".data ∨ k = "j".data) →
        update m (Msg.key k) = (m, Cmd.none)) ∧
       (¬(k = "up".data ∨ k = "k".data ∨ k = "down".data ∨ k = "j".data) →
        update m (Msg.key k) = (m, Cmd.quit)))) ∧
    (m.state = State.stateError →
      (((k = "ctrl+c".data ∨ k = "q".data) → update m (Msg.key k) = (m, Cmd.quit)) ∧
       (¬(k = "ctrl+c".data ∨ k = "q".data) → update m (Msg.key k) = (m, Cmd.none)))) := by
  constructor
  · intro hs
    constructor
    · intro hmove
      show updateKey m k = _
      rcases hmove with hk | hk | hk | hk
      · rw [updateKey_upKeys_other m k (Or.inl hk) (by rw [hs]; decide) (by rw [hs]; decide)
          (by rw [hs]; decide)]
      · rw [updateKey_upKeys_other m k (Or.inr hk) (by rw [hs]; decide) (by rw [hs]; decide)
          (by rw [hs]; decide)]
      · rw [updateKey_downKeys_other m k (Or.inl hk) (by rw [hs]; decide) (by rw [hs]; decide)
          (by rw [hs]; decide)]
      · rw [updateKey_downKeys_other m k (Or.inr hk) (by rw [hs]; decide) (by rw [hs]; decide)
          (by rw [hs]; decide)]
    · intro hmove
      show updateKey m k = _
      by_cases h1 : k = "ctrl+c".data ∨ k = "q".data
      · rw [updateKey_quitKeys m k h1]
      · have h2 : ¬(k = "up".data ∨ k = "k".data) :=
          fun hh => hmove (hh.elim (fun x => Or.inl x) (fun x => Or.inr (Or.inl x)))
        have h3 : ¬(k = "down".data ∨ k = "j".data) :=
          fun hh => hmove (hh.elim (fun x => Or.inr (Or.inr (Or.inl x)))
            (fun x => Or.inr (Or.inr (Or.inr x))))
        by_cases h4 : k = "enter".data ∨ k = " ".data
        · rw [updateKey_selectKeys_complete m k h4 hs]
        · by_cases h5 : k = "backspace".data ∨ k = "esc".data
          · rw [updateKey_backKeys_complete m k h5 hs]
          · rw [updateKey_nonspecial_complete m k h1 h2 h3 h4 h5 hs]
  · intro hs
    constructor
    · intro h1
      show updateKey m k = _
      rw [updateKey_quitKeys m k h1]
    · intro h1
      show updateKey m k = _
      by_cases h2 : k = "up".data ∨ k = "k".data
      · rw [updateKey_upKeys_other m k h2 (by rw [hs]; decide) (by rw [hs]; decide)
          (by rw [hs]; decide)]
      · by_cases h3 : k = "down".data ∨ k = "j".data
        · rw [updateKey_downKeys_other m k h3 (by rw [hs]; decide) (by rw [hs]; decide)
            (by rw [hs]; decide)]
        · by_cases h4 : k = "enter".data ∨ k = " ".data
          · rw [updateKey_selectKeys_other m k h4 (by rw [hs]; decide) (by rw [hs]; decide)
              (by rw [hs]; decide) (by rw [hs]; decide)]
          · by_cases h5 : k = "backspace".data ∨ k = "esc".data
            · rw [updateKey_backKeys_other m k h5 (by rw [hs]; decide) (by rw [hs]; decide)
                (by rw [hs]; decide)]
            · rw [updateKey_nonspecial_other m k h1 h2 h3 h4 h5 (by rw [hs]; decide)
                (by rw [hs]; decide) (by rw [hs]; decide) (by rw [hs]; decide)]

/-- Witness for C8 (amended): concrete keys on the two terminal screens. -/
theorem terminal_screen_keys_inst :
    update mDone (Msg.key "x".data) = (mDone, Cmd.quit) ∧
    update mFailed (Msg.key "q".data) = (mFailed, Cmd.quit) ∧
    update mFailed (Msg.key "x".data) = (mFailed, Cmd.none) :=
  ⟨((terminal_screen_keys mDone "x".data).1 rfl).2 (by decide),
   ((terminal_screen_keys mFailed "q".data).2 rfl).1 (Or.inr rfl),
   ((terminal_screen_keys mFailed "x".data).2 rfl).2 (by decide)⟩

/-- Counterexample to C8 as stated: on the Failed screen the `enter` key
does not quit — the Session is returned unchanged with no command. -/
theorem failed_enter_no_quit :
    mFailed.state = State.stateError ∧
    update mFailed (Msg.key "enter".data) = (mFailed, Cmd.none) ∧
    Cmd.none ≠ Cmd.quit := by
  decide
